import Mathlib

/-!
Verification of the enterprise-ticket-agent frontend core
(`src/frontend/src/App.tsx`): the `normalizeThread` payload normalizer and
the lifecycle handlers `handleSelectTicket`, `handleSendFollowup` and
`handleCloseTicket`, shallowly embedded as pure functions over explicit
state.  JavaScript optional / nullable values are modelled as `Option`;
the JavaScript `x || d` idiom on string fields (which replaces
`undefined`, `null` and `""`) is `jsOr`; the `x ?? d` idiom (which
replaces only `undefined` / `null`) is `Option.getD`.  Wall-clock time
(`new Date().toISOString()`) is passed in as an explicit `now : String`
argument, so each handler is a pure function of its inputs and the time
of the call.
-/

/-- One message of a ticket conversation (App.tsx `ThreadMessage`). -/
structure ThreadMessage where
  id : String
  role : String
  content : String
  timestamp : String
deriving DecidableEq

/-- A suggested action as it can appear on the wire: either the
structured `\x7btitle, steps[]\x7d` object or a bare string.  App.tsx
declares only the structured shape but passes the field through
untouched, so both runtime shapes are representable. -/
inductive SuggestedActionWire where
  | structured (title : Option String) (steps : List String)
  | bare (text : String)
deriving DecidableEq

/-- A follow-up question (App.tsx `FollowupQuestion`). -/
structure FollowupQuestion where
  text : String
deriving DecidableEq

/-- A similar incident (App.tsx `SimilarIncident`). -/
structure SimilarIncident where
  incident_id : String
  subject : String
  description : String
  similarity_score : Rat
  created_at : Option String
deriving DecidableEq

/-- A raw or normalized ticket-thread payload.  Every field is optional
because a raw JSON payload may omit or `null` any of them; the output of
`normalizeThread` is the same runtime shape with every field present
(`some`), matching the object literal App.tsx builds on lines 127-140. -/
structure ThreadPayload where
  ticket_id : Option String
  subject : Option String
  description : Option String
  severity : Option String
  user_upn : Option String
  created_at : Option String
  status : Option String
  thread : Option (List ThreadMessage)
  suggested_actions : Option (List SuggestedActionWire)
  followup_questions : Option (List FollowupQuestion)
  similar_incidents : Option (List SimilarIncident)
deriving DecidableEq

/-- One entry of the ticket-history list (App.tsx `TicketHistoryItem`). -/
structure TicketHistoryItem where
  ticket_id : String
  id : String
  subject : String
  severity : String
  user_upn : Option String
  created_at : String
  status : Option String
deriving DecidableEq

/-- The React component state of `App` that the lifecycle handlers touch:
`history`, `selectedTicketId`, `thread`, `loadingThread`, `followup`,
`error`. -/
structure AppState where
  history : List TicketHistoryItem
  selectedTicketId : Option String
  thread : Option ThreadPayload
  loadingThread : Bool
  followup : String
  error : Option String
deriving DecidableEq

/-- JavaScript `x || d` on a string-valued field: `undefined`, `null`
and the empty string are falsy and replaced by the default. -/
def jsOr (v : Option String) (d : String) : String :=
  match v with
  | none => d
  | some s => if s = "" then d else s

/-- App.tsx lines 122-141, `normalizeThread`: builds the canonical
thread object.  `ticket_id`, `subject` and `user_upn` pass through
verbatim (`user_upn ?? null` is the identity on an already-optional
value); `description`, `severity` and `created_at` use `||` defaulting;
`status` uses `?? "open"`; the four collections use `|| []`.  `now` is
the value of `new Date().toISOString()` at the moment of the call. -/
def normalizeThread (now : String) (data : ThreadPayload) : ThreadPayload :=
  let msgs : List ThreadMessage := data.thread.getD []
  { ticket_id := data.ticket_id
    subject := data.subject
    description := some (jsOr data.description "")
    severity := some (jsOr data.severity "medium")
    user_upn := data.user_upn
    created_at := some (jsOr data.created_at now)
    status := some (data.status.getD "open")
    thread := some msgs
    suggested_actions := some (data.suggested_actions.getD [])
    followup_questions := some (data.followup_questions.getD [])
    similar_incidents := some (data.similar_incidents.getD []) }

/-- App.tsx lines 201-205, the synchronous prefix of `handleSelectTicket`
before the `fetch` suspend point: records the new selection, raises the
loading flag and clears the error banner. -/
def handleSelectTicketStart (ticketId : String) (s : AppState) : AppState :=
  { s with selectedTicketId := some ticketId, loadingThread := true, error := none }

/-- App.tsx lines 214-218 and 223-225, the success continuation of
`handleSelectTicket` once the response for its request has arrived: the
payload is normalized and stored as the active thread unconditionally —
the code never compares the request's ticket id with the current
selection. -/
def handleSelectTicketResolveOk (now : String) (data : ThreadPayload) (s : AppState) : AppState :=
  { s with thread := some (normalizeThread now data), loadingThread := false }

/-- App.tsx lines 219-225, the failure continuation of
`handleSelectTicket`: surfaces an error, drops the thread, lowers the
loading flag. -/
def handleSelectTicketResolveErr (s : AppState) : AppState :=
  { s with error := some "Failed to load ticket thread.", thread := none, loadingThread := false }

/-- JavaScript `String.prototype.trim()`: drop whitespace from both ends
of the string, modelled over the character list. -/
def jsTrim (s : String) : String :=
  String.mk (((s.data.dropWhile Char.isWhitespace).reverse.dropWhile
    Char.isWhitespace).reverse)

/-- App.tsx lines 229-234, the synchronous prefix of `handleSendFollowup`
before its `fetch`: returns `none` when the handler returns early
without any network call (no selected ticket, or blank trimmed text),
and `some` of the pre-fetch state when the network call is issued. -/
def handleSendFollowupStart (s : AppState) : Option AppState :=
  match s.selectedTicketId with
  | none => none
  | some _ =>
      if jsTrim s.followup = "" then none
      else some { s with loadingThread := true, error := none }

/-- App.tsx lines 251-262, the success continuation of
`handleSendFollowup`: normalizes and stores the response thread, clears
the follow-up input, lowers the loading flag. -/
def handleSendFollowupResolveOk (now : String) (data : ThreadPayload) (s : AppState) : AppState :=
  { s with thread := some (normalizeThread now data), followup := "", loadingThread := false }

/-- App.tsx lines 266-271, the synchronous prefix of `handleCloseTicket`:
`none` when no ticket is selected (early return), otherwise the
pre-fetch state with the loading flag raised and the error cleared. -/
def handleCloseTicketStart (s : AppState) : Option AppState :=
  match s.selectedTicketId with
  | none => none
  | some _ => some { s with loadingThread := true, error := none }

/-- App.tsx lines 286-303, the success continuation of
`handleCloseTicket` for the selection `selected` captured when the
handler ran: stores the normalized response as the active thread and
maps over the history, setting `status := t.status ?? "closed"` on every
entry whose `ticket_id` equals the selection and leaving all other
entries untouched. -/
def handleCloseTicketResolveOk (now : String) (selected : String) (data : ThreadPayload)
    (s : AppState) : AppState :=
  let t := normalizeThread now data
  { s with
    thread := some t
    loadingThread := false
    history := s.history.map (fun h =>
      if h.ticket_id = selected then { h with status := some (t.status.getD "closed") } else h) }

/-- Modelled from the spec: the canonical form a suggested action ought
to take per §3 / §4.1 — a structured object is kept, a bare string
becomes a single-step action with no title.  No such collapsing exists
anywhere in src/; this definition only serves to compare the spec's
claimed shape with what `normalizeThread` actually produces. -/
def normalizeActionSpec : SuggestedActionWire → SuggestedActionWire
  | .structured t steps => .structured t steps
  | .bare s => .structured none [s]

/-- Stable insertion of an incident into a list sorted by descending
`similarity_score`: the new element goes before the first strictly
smaller score, hence after all earlier-arrived equal scores. -/
def insertIncidentDesc (x : SimilarIncident) : List SimilarIncident → List SimilarIncident
  | [] => [x]
  | y :: ys =>
      if y.similarity_score < x.similarity_score then x :: y :: ys
      else y :: insertIncidentDesc x ys

/-- Modelled from the spec: the similar-incidents ordering §3 / §4.1
claims — input re-sorted by descending `similarity_score`, stable on
ties.  No sort exists anywhere in src/; this definition only serves to
compare the spec's claimed ordering with what `normalizeThread` actually
produces. -/
def sortIncidentsSpec : List SimilarIncident → List SimilarIncident
  | [] => []
  | x :: xs => insertIncidentDesc x (sortIncidentsSpec xs)

/-- A payload with every field absent, for building concrete test
payloads by record update. -/
def emptyPayload : ThreadPayload :=
  { ticket_id := none, subject := none, description := none, severity := none,
    user_upn := none, created_at := none, status := none, thread := none,
    suggested_actions := none, followup_questions := none, similar_incidents := none }

/-- A concrete thread payload for ticket A, used in the stale-response
scenario. -/
def payloadA : ThreadPayload :=
  { emptyPayload with ticket_id := some "A", subject := some "printer jam" }

/-- A concrete thread payload for ticket B, used in the stale-response
scenario. -/
def payloadB : ThreadPayload :=
  { emptyPayload with ticket_id := some "B", subject := some "vpn down" }

/-- A concrete initial component state with nothing selected and nothing
loaded. -/
def initialState : AppState :=
  { history := [], selectedTicketId := none, thread := none,
    loadingThread := false, followup := "", error := none }

/-- A payload missing both identity fields but carrying a description. -/
def c2payload : ThreadPayload :=
  { emptyPayload with description := some "hello" }

/-- A component state with ticket T1 selected and non-blank follow-up
text typed. -/
def c3state : AppState :=
  { initialState with
    selectedTicketId := some "T1"
    followup := "please also check the router" }

/-- A payload whose suggested actions arrive as one bare string. -/
def c4payload : ThreadPayload :=
  { emptyPayload with
    ticket_id := some "T2"
    subject := some "service down"
    suggested_actions := some [SuggestedActionWire.bare "Restart service"] }

/-- A similar incident with the lowest possible score. -/
def incLow : SimilarIncident :=
  { incident_id := "I1", subject := "s1", description := "d1",
    similarity_score := 0, created_at := none }

/-- A similar incident with the highest possible score. -/
def incHigh : SimilarIncident :=
  { incident_id := "I2", subject := "s2", description := "d2",
    similarity_score := 1, created_at := none }

/-- A payload whose similar incidents arrive in ascending-score order. -/
def c6payload : ThreadPayload :=
  { emptyPayload with
    ticket_id := some "T3"
    subject := some "x"
    similar_incidents := some [incLow, incHigh] }

/-- A payload carrying a severity outside the low / medium / high enum. -/
def c7payload : ThreadPayload :=
  { emptyPayload with
    ticket_id := some "T4"
    subject := some "y"
    severity := some "catastrophic" }

/-- A two-entry history list, both entries open. -/
def historySample : List TicketHistoryItem :=
  [{ ticket_id := "T5", id := "T5", subject := "a", severity := "high",
     user_upn := none, created_at := "2024-01-01", status := some "open" },
   { ticket_id := "T6", id := "T6", subject := "b", severity := "low",
     user_upn := none, created_at := "2024-01-02", status := some "open" }]

/-- An open active thread for ticket T5. -/
def c8thread : ThreadPayload :=
  { emptyPayload with ticket_id := some "T5", status := some "open" }

/-- The server's response to closing ticket T5. -/
def c8response : ThreadPayload :=
  { emptyPayload with ticket_id := some "T5", status := some "closed" }

/-- A component state showing open ticket T5 with the sample history. -/
def c8state : AppState :=
  { initialState with
    history := historySample
    selectedTicketId := some "T5"
    thread := some c8thread }

/-- Applying `jsOr` a second time with the same default is the identity:
the first pass left either the default or a non-empty original value. -/
theorem jsOr_idem (v : Option String) (d : String) :
    jsOr (some (jsOr v d)) d = jsOr v d := by
  cases v with
  | none => by_cases hd : d = "" <;> simp [jsOr, hd]
  | some s => by_cases hs : s = "" <;> by_cases hd : d = "" <;> simp [jsOr, hs, hd]

/-- Applying `jsOr` a second time with any other default is still the
identity, provided the first default was non-empty. -/
theorem jsOr_some_ne (v : Option String) (d d' : String) (hd : d ≠ "") :
    jsOr (some (jsOr v d)) d' = jsOr v d := by
  cases v with
  | none => simp [jsOr, hd]
  | some s => by_cases hs : s = "" <;> simp [jsOr, hs, hd]

/-- C1 counterexample: select ticket A, then ticket B; B's response
resolves first, then A's late response resolves.  The claim says A's
result is discarded and the active thread remains B's; in the code the
late resolution overwrites the thread with A's data even though the
selection is still B. -/
theorem stale_load_overwrites_selected :
    (handleSelectTicketResolveOk "t1" payloadA
        (handleSelectTicketResolveOk "t0" payloadB
          (handleSelectTicketStart "B"
            (handleSelectTicketStart "A" initialState)))).selectedTicketId = some "B"
    ∧ (handleSelectTicketResolveOk "t1" payloadA
        (handleSelectTicketResolveOk "t0" payloadB
          (handleSelectTicketStart "B"
            (handleSelectTicketStart "A" initialState)))).thread
        = some (normalizeThread "t1" payloadA)
    ∧ some (normalizeThread "t1" payloadA) ≠ some (normalizeThread "t0" payloadB) := by
  decide

/-- C1 amended: `handleSelectTicket` carries no request token and never
compares its requested ticket id with the current selection; a resolved
load is applied to the active thread unconditionally, so the last
response to resolve wins.  After selecting A then B, with B's response
resolving before A's, the active thread is A's. -/
theorem select_resolve_applies_unconditionally
    (s : AppState) (tA tB now now2 : String) (dA dB : ThreadPayload) :
    (handleSelectTicketResolveOk now2 dA
        (handleSelectTicketResolveOk now dB
          (handleSelectTicketStart tB
            (handleSelectTicketStart tA s)))).thread
      = some (normalizeThread now2 dA) := by
  rfl

/-- C2 counterexample: a payload missing both `ticket_id` and `subject`
does not make `normalizeThread` fail and is not mapped to a failed/empty
state: the output is a fully populated thread whose description comes
from the invalid payload. -/
theorem normalize_missing_identity_populates :
    c2payload.ticket_id = none
    ∧ c2payload.subject = none
    ∧ normalizeThread "2024-06-01T00:00:00Z" c2payload =
        { ticket_id := none, subject := none, description := some "hello",
          severity := some "medium", user_upn := none,
          created_at := some "2024-06-01T00:00:00Z", status := some "open",
          thread := some [], suggested_actions := some [],
          followup_questions := some [], similar_incidents := some [] } := by
  decide

/-- C2 amended: `normalizeThread` performs no identity-field validation
and cannot fail: `ticket_id`, `subject` and `user_upn` pass through
verbatim (missing stays missing), and every other field of the output is
present, filled from the payload or its default. -/
theorem normalize_no_identity_validation (now : String) (data : ThreadPayload) :
    (normalizeThread now data).ticket_id = data.ticket_id
    ∧ (normalizeThread now data).subject = data.subject
    ∧ (normalizeThread now data).user_upn = data.user_upn
    ∧ ((normalizeThread now data).description).isSome = true
    ∧ ((normalizeThread now data).severity).isSome = true
    ∧ ((normalizeThread now data).created_at).isSome = true
    ∧ ((normalizeThread now data).status).isSome = true
    ∧ ((normalizeThread now data).thread).isSome = true
    ∧ ((normalizeThread now data).suggested_actions).isSome = true
    ∧ ((normalizeThread now data).followup_questions).isSome = true
    ∧ ((normalizeThread now data).similar_incidents).isSome = true := by
  simp [normalizeThread]

/-- C3 counterexample: with ticket T1 selected and non-blank text, the
first invocation of `handleSendFollowup` passes its guard and issues a
network call; invoked again in the resulting in-flight state
(`loadingThread = true`, text still present), it passes the guard again
and issues a second network call instead of being rejected as
InvalidOperation. -/
theorem second_followup_not_rejected :
    handleSendFollowupStart c3state
      = some { c3state with loadingThread := true, error := none }
    ∧ (handleSendFollowupStart
        { c3state with loadingThread := true, error := none }).isSome = true := by
  decide

/-- C3 amended: `handleSendFollowup` has no pending-operation guard and
raises no InvalidOperation: whenever a ticket is selected and the
trimmed text is non-blank, the handler proceeds to the network call,
regardless of the `loadingThread` flag — a second invocation while one
follow-up is in flight issues a second, interleaved request. -/
theorem followup_start_no_pending_guard
    (s : AppState) (tid : String)
    (h1 : s.selectedTicketId = some tid) (h2 : jsTrim s.followup ≠ "") :
    handleSendFollowupStart s = some { s with loadingThread := true, error := none } := by
  simp [handleSendFollowupStart, h1, h2]

/-- C3 witness: the no-pending-guard theorem applied to a concrete
in-flight state. -/
theorem followup_start_no_pending_guard_witness :
    handleSendFollowupStart { c3state with loadingThread := true }
      = some { c3state with loadingThread := true, error := none } :=
  followup_start_no_pending_guard { c3state with loadingThread := true } "T1" rfl (by decide)

/-- C4 counterexample: suggested actions arriving as the bare string
list `["Restart service"]` are passed through unchanged, not collapsed
to the structured single-step action with no title that the claim (and
`normalizeActionSpec`) prescribes. -/
theorem bare_action_stays_bare :
    (normalizeThread "t0" c4payload).suggested_actions
      = some [SuggestedActionWire.bare "Restart service"]
    ∧ [SuggestedActionWire.bare "Restart service"].map normalizeActionSpec
      = [SuggestedActionWire.structured none ["Restart service"]]
    ∧ (normalizeThread "t0" c4payload).suggested_actions
      ≠ some ([SuggestedActionWire.bare "Restart service"].map normalizeActionSpec) := by
  decide

/-- C4 amended: `normalizeThread` passes the `suggested_actions`
collection through unchanged (defaulting only absence to the empty
list); no wire shape is converted, so bare strings remain bare
strings. -/
theorem normalize_actions_passthrough (now : String) (data : ThreadPayload) :
    (normalizeThread now data).suggested_actions
      = some (data.suggested_actions.getD []) := by
  simp [normalizeThread]

/-- C5: `normalizeThread` is embedded as a pure function — the source
builds a fresh object literal and never writes to its input — and it is
idempotent: renormalizing its own output, at any later time `now2`,
returns it unchanged.  The hypothesis `now ≠ ""` reflects that
`new Date().toISOString()` never returns the empty string. -/
theorem normalize_idempotent (now now2 : String) (x : ThreadPayload) (h : now ≠ "") :
    normalizeThread now2 (normalizeThread now x) = normalizeThread now x := by
  cases x
  simp [normalizeThread, jsOr_idem, jsOr_some_ne _ _ _ h]

/-- C5 witness: idempotence at the empty payload and two distinct
times. -/
theorem normalize_idempotent_witness :
    normalizeThread "t1" (normalizeThread "t0" emptyPayload)
      = normalizeThread "t0" emptyPayload :=
  normalize_idempotent "t0" "t1" emptyPayload (by decide)

/-- C6 counterexample: similar incidents arriving in ascending-score
order `[score 0, score 1]` are emitted in that same input order, not in
the descending order `[score 1, score 0]` that the claimed stable
re-sort (`sortIncidentsSpec`) produces. -/
theorem incidents_not_resorted :
    (normalizeThread "t0" c6payload).similar_incidents = some [incLow, incHigh]
    ∧ sortIncidentsSpec [incLow, incHigh] = [incHigh, incLow]
    ∧ (normalizeThread "t0" c6payload).similar_incidents
      ≠ some (sortIncidentsSpec [incLow, incHigh]) := by
  decide

/-- C6 amended: `normalizeThread` leaves both the message sequence and
the similar-incidents sequence in input order; no field is re-sorted
(absence defaults to the empty list). -/
theorem normalize_preserves_input_order (now : String) (data : ThreadPayload) :
    (normalizeThread now data).thread = some (data.thread.getD [])
    ∧ (normalizeThread now data).similar_incidents
      = some (data.similar_incidents.getD []) := by
  simp [normalizeThread]

/-- C7 counterexample: the out-of-enum severity "catastrophic" is not a
validation error: it is copied into the output thread unchanged, and the
thread is populated normally. -/
theorem unknown_severity_not_rejected :
    (normalizeThread "t0" c7payload).severity = some "catastrophic"
    ∧ ¬ ("catastrophic" ∈ (["low", "medium", "high"] : List String))
    ∧ (normalizeThread "t0" c7payload).status = some "open" := by
  decide

/-- C7 amended: `normalizeThread` never validates severity: any
non-empty severity string — enum member or not — passes through to the
output unchanged; only an absent, null or empty severity is replaced by
"medium". -/
theorem normalize_severity_passthrough
    (now sev : String) (data : ThreadPayload)
    (h1 : data.severity = some sev) (h2 : sev ≠ "") :
    (normalizeThread now data).severity = some sev := by
  simp [normalizeThread, jsOr, h1, h2]

/-- C7 witness: the severity-passthrough theorem at the out-of-enum
payload. -/
theorem normalize_severity_passthrough_witness :
    (normalizeThread "t0" c7payload).severity = some "catastrophic" :=
  normalize_severity_passthrough "t0" "catastrophic" c7payload rfl (by decide)

/-- C8: when the close response confirms the closed status, the
resolution of `handleCloseTicket` maps the history so that every entry
matching the selected ticket gets status closed with all its other
fields intact, every non-matching entry is unchanged in every field and
in position, the active thread becomes the normalized response with
status closed, and the selection and follow-up draft are untouched. -/
theorem close_resolve_marks_closed
    (now selected : String) (data : ThreadPayload) (s : AppState) (t0 : ThreadPayload)
    (_hopen : s.thread = some t0 ∧ t0.status = some "open")
    (hclosed : data.status = some "closed") :
    (handleCloseTicketResolveOk now selected data s).history
      = s.history.map (fun h =>
          if h.ticket_id = selected then { h with status := some "closed" } else h)
    ∧ (handleCloseTicketResolveOk now selected data s).thread
      = some (normalizeThread now data)
    ∧ (normalizeThread now data).status = some "closed"
    ∧ (handleCloseTicketResolveOk now selected data s).selectedTicketId
      = s.selectedTicketId
    ∧ (handleCloseTicketResolveOk now selected data s).followup = s.followup := by
  refine ⟨?_, rfl, ?_, rfl, rfl⟩
  · simp [handleCloseTicketResolveOk, normalizeThread, hclosed]
  · simp [normalizeThread, hclosed]

/-- C8 witness: closing open ticket T5 in the two-entry sample state,
with a response confirming the closure. -/
theorem close_resolve_marks_closed_witness :
    (handleCloseTicketResolveOk "t0" "T5" c8response c8state).history
      = c8state.history.map (fun h =>
          if h.ticket_id = "T5" then { h with status := some "closed" } else h) :=
  (close_resolve_marks_closed "t0" "T5" c8response c8state c8thread ⟨rfl, rfl⟩ rfl).1

/-- C9: every collection field of the normalized output is present, and
any collection absent from the payload becomes the empty sequence. -/
theorem normalize_defaults_absent_collections (now : String) (data : ThreadPayload) :
    ((normalizeThread now data).thread).isSome = true
    ∧ ((normalizeThread now data).suggested_actions).isSome = true
    ∧ ((normalizeThread now data).followup_questions).isSome = true
    ∧ ((normalizeThread now data).similar_incidents).isSome = true
    ∧ (data.thread = none → (normalizeThread now data).thread = some [])
    ∧ (data.suggested_actions = none →
        (normalizeThread now data).suggested_actions = some [])
    ∧ (data.followup_questions = none →
        (normalizeThread now data).followup_questions = some [])
    ∧ (data.similar_incidents = none →
        (normalizeThread now data).similar_incidents = some []) := by
  refine ⟨rfl, rfl, rfl, rfl, ?_, ?_, ?_, ?_⟩ <;> intro h <;> simp [normalizeThread, h]

/-- C9 witness: the defaulting theorem at the all-absent payload. -/
theorem normalize_defaults_absent_collections_witness :
    (normalizeThread "t0" emptyPayload).thread = some []
    ∧ (normalizeThread "t0" emptyPayload).suggested_actions = some [] :=
  ⟨(normalize_defaults_absent_collections "t0" emptyPayload).2.2.2.2.1 rfl,
   (normalize_defaults_absent_collections "t0" emptyPayload).2.2.2.2.2.1 rfl⟩

/-- C10: when `created_at` is absent, null or empty, `normalizeThread`
fills it with the wall-clock time `now` of the call; the output
`created_at` is always present and non-empty (given that
`new Date().toISOString()` is never empty); and on such inputs the
result depends on the call time, so `normalizeThread` is not a function
of the payload alone. -/
theorem normalize_created_at_wall_clock
    (now now2 : String) (data data2 : ThreadPayload)
    (h0 : now ≠ "")
    (hfalsy : data.created_at = none ∨ data.created_at = some "")
    (hne : now2 ≠ now) :
    (normalizeThread now data).created_at = some now
    ∧ (∃ s, (normalizeThread now data2).created_at = some s ∧ s ≠ "")
    ∧ (normalizeThread now2 data).created_at ≠ (normalizeThread now data).created_at := by
  have h1 : (normalizeThread now data).created_at = some now := by
    obtain h | h := hfalsy <;> simp [normalizeThread, jsOr, h]
  have h2 : (normalizeThread now2 data).created_at = some now2 := by
    obtain h | h := hfalsy <;> simp [normalizeThread, jsOr, h]
  refine ⟨h1, ?_, ?_⟩
  · cases hc : data2.created_at with
    | none => exact ⟨now, by simp [normalizeThread, jsOr, hc], h0⟩
    | some s =>
        by_cases hs : s = ""
        · exact ⟨now, by simp [normalizeThread, jsOr, hc, hs], h0⟩
        · exact ⟨s, by simp [normalizeThread, jsOr, hc, hs], hs⟩
  · rw [h1, h2]
    exact fun hh => hne (Option.some.inj hh)

/-- C10 witness: the wall-clock theorem at the all-absent payload and
two distinct times. -/
theorem normalize_created_at_wall_clock_witness :
    (normalizeThread "t0" emptyPayload).created_at = some "t0" :=
  (normalize_created_at_wall_clock "t0" "t1" emptyPayload emptyPayload
    (by decide) (Or.inl rfl) (by decide)).1
